import Mathlib

/-!
# Verification of the ERPNext Document Intelligence demonstration harness

Shallow embedding of the repository's Flask upload server (`api_server.py`),
the mock HTTP servers used by the test suite (`tests/mock_api_server.py`),
and — where the spec describes frontend logic that lives outside this
repository — models built from the spec's own words (marked as such).

Numbers are modelled in exact fixed-point with two decimal places: a JSON
number `x` of the Python source is represented by the integer `100 * x`
(all numeric constants in the source are exact two-decimal values, so this
embedding is lossless).  E.g. `292.50` is embedded as `29250`, the quantity
`2` as `200`.
-/

/-- Python's substring matching at the head: does `pat` occur (contiguously)
at the start of `s`? -/
def matchesHere : List Char → List Char → Bool
  | [], _ => true
  | _ :: _, [] => false
  | p :: ps, c :: cs => p == c && matchesHere ps cs

/-- Does `pat` occur (contiguously) anywhere in `s`? -/
def hasSubstrList (pat : List Char) : List Char → Bool
  | [] => matchesHere pat []
  | c :: cs => matchesHere pat (c :: cs) || hasSubstrList pat cs

/-- Python's `pat in s` on strings (substring containment). -/
def strIn (pat s : String) : Bool := hasSubstrList pat.toList s.toList

/-- Python's `s.endswith(pat)` (suffix test). -/
def strEndsWith (s pat : String) : Bool :=
  matchesHere pat.toList.reverse s.toList.reverse

/-- JSON values as produced by the servers.  Numbers are two-decimal
fixed-point integers: `num c` stands for the JSON number `c / 100`. -/
inductive Json where
  | num (c : ℤ)
  | str (s : String)
  | obj (fields : List (String × Json))
  | arr (elems : List Json)

/-- Lookup in an association list of JSON object fields. -/
def lookupField : List (String × Json) → String → Option Json
  | [], _ => none
  | (k, v) :: rest, key => if k == key then some v else lookupField rest key

/-- Lookup a key in a JSON object (none on non-objects or missing keys). -/
def Json.lookup (j : Json) (key : String) : Option Json :=
  match j with
  | .obj fields => lookupField fields key
  | _ => none

/-- Whether a JSON value is an object carrying the given key. -/
def Json.hasKey (j : Json) (k : String) : Bool := (j.lookup k).isSome

/-- Numeric payload of a JSON value (in fixed-point cents), if a number. -/
def Json.getNum : Json → Option ℤ
  | .num c => some c
  | _ => none

/-- Element list of a JSON value, if it is an array. -/
def Json.getArr : Json → Option (List Json)
  | .arr l => some l
  | _ => none

/-- Product of two two-decimal fixed-point values, rounded half-up to two
decimal places (the spec's `round(a * b, 2)` on the represented numbers). -/
def mulRound2 (a b : ℤ) : ℤ := (a * b + 50) / 100

/-- A Flask error body `{"error": msg}`. -/
def errObj (msg : String) : Json := .obj [("error", .str msg)]

/-- The constant invoice extraction payload of `upload_invoice` in
`api_server.py` (`mock_data`), parametrised by the dynamic values: today's
date string and the saved filename. -/
def invoice_mock_data (today fn : String) : Json :=
  .obj [
    ("confidence", .num 85),
    ("data", .obj [
      ("InvoiceId", .str "INV-2026-001"),
      ("VendorName", .str "Sample Vendor Inc"),
      ("InvoiceDate", .str today),
      ("BillingAddressRecipient", .str "John Doe"),
      ("ShippingAddress", .str "123 Main St, City, State 12345"),
      ("SubTotal", .num 100000),
      ("ShippingCost", .num 5000),
      ("InvoiceTotal", .num 110000),
      ("Tax", .num 5000),
      ("Items", .arr [
        .obj [
          ("description", .str "Sample Product 1"),
          ("category", .str "Category A"),
          ("quantity", .num 200),
          ("rate", .num 30000),
          ("amount", .num 60000)],
        .obj [
          ("description", .str "Sample Product 2"),
          ("category", .str "Category B"),
          ("quantity", .num 100),
          ("rate", .num 40000),
          ("amount", .num 40000)]])]),
    ("predictionTime", .num 250),
    ("filename", .str fn)]

/-- The constant purchase-order extraction payload of `upload_po` in
`api_server.py` (`mock_data`), parametrised by today's date and the saved
filename. -/
def po_mock_data (today fn : String) : Json :=
  .obj [
    ("po_number", .str "PO-2026-001"),
    ("date", .str today),
    ("delivery_date", .str "2026-02-15"),
    ("supplier_name", .str "ABC Suppliers Inc"),
    ("company_name", .str "My Company"),
    ("total_amount", .num 152000),
    ("status", .str "Pending"),
    ("items", .arr [
      .obj [
        ("description", .str "Ergonomic Office Chair"),
        ("quantity", .num 500),
        ("unit_price", .num 15000),
        ("total", .num 75000)],
      .obj [
        ("description", .str "Standing Desk - Adjustable"),
        ("quantity", .num 300),
        ("unit_price", .num 25000),
        ("total", .num 75000)],
      .obj [
        ("description", .str "Monitor Arm Mount"),
        ("quantity", .num 400),
        ("unit_price", .num 8000),
        ("total", .num 32000)]]),
    ("filename", .str fn)]

/-- `upload_invoice` of `api_server.py`.  The request is modelled by the
`file` part: `none` when the multipart field is absent, `some fn` for a file
part with filename `fn`.  `now` is the timestamp used in the saved filename,
`today` the date placed in the payload.  Returns (body, HTTP status). -/
def upload_invoice (file : Option String) (now today : String) : Json × Nat :=
  match file with
  | none => (errObj "No file provided", 400)
  | some fn =>
    if fn = "" then (errObj "No file selected", 400)
    else if !(strEndsWith fn ".pdf") then (errObj "Only PDF files are accepted", 400)
    else (invoice_mock_data today (s!"invoice_{now}_{fn}"), 200)

/-- `upload_po` of `api_server.py`, the same checks as `upload_invoice`. -/
def upload_po (file : Option String) (now today : String) : Json × Nat :=
  match file with
  | none => (errObj "No file provided", 400)
  | some fn =>
    if fn = "" then (errObj "No file selected", 400)
    else if !(strEndsWith fn ".pdf") then (errObj "Only PDF files are accepted", 400)
    else (po_mock_data today (s!"po_{now}_{fn}"), 200)

namespace MockAPIHandler

/-- The constant invoice extraction body of the mock test server
(`tests/mock_api_server.py`, `/upload/invoice` branch of `do_POST`). -/
def mock_invoice_body : Json :=
  .obj [
    ("data", .obj [
      ("InvoiceId", .str "INV-2026-001"),
      ("VendorName", .str "Test Customer"),
      ("InvoiceDate", .str "2026-01-29"),
      ("DueDate", .str "2026-02-28"),
      ("BillingAddressRecipient", .str "Test Customer"),
      ("ShippingAddress", .str "123 Test St"),
      ("Currency", .str "USD"),
      ("SubTotal", .num 20000),
      ("ShippingCost", .num 1500),
      ("Tax", .num 3500),
      ("InvoiceTotal", .num 25000),
      ("Items", .arr [
        .obj [
          ("description", .str "Test Item 1"),
          ("category", .str "Electronics"),
          ("quantity", .num 200),
          ("rate", .num 10000),
          ("amount", .num 20000)]])])]

/-- The constant purchase-order extraction body of the mock test server
(`/upload/po` branch of `do_POST`). -/
def mock_po_body : Json :=
  .obj [
    ("po_number", .str "PO-2026-00001"),
    ("date", .str "2026-01-29"),
    ("delivery_date", .str "2026-02-15"),
    ("supplier_name", .str "ABC Supplier"),
    ("company_name", .str "My Company"),
    ("currency", .str "USD"),
    ("total_amount", .num 29250),
    ("status", .str "Draft"),
    ("items", .arr [
      .obj [
        ("item_code", .str "ITEM-001"),
        ("item_name", .str "Steel Rod"),
        ("description", .str "Steel Rod"),
        ("quantity", .num 1000),
        ("unit_price", .num 2500),
        ("total", .num 25000)]])]

/-- Body of the ERPNext-submission branch of `do_POST`. -/
def submitted_body : Json :=
  .obj [("data", .obj [("name", .str "Submitted"), ("docstatus", .num 100)])]

/-- Body of the Sales Invoice creation branch of `do_POST`. -/
def sinv_created_body : Json :=
  .obj [("data", .obj [("name", .str "SINV-2026-00001"), ("docstatus", .num 0)])]

/-- Body of the Purchase Order creation branch of `do_POST`. -/
def po_created_body : Json :=
  .obj [("data", .obj [("name", .str "PO-2026-00001"), ("docstatus", .num 0)])]

/-- `MockAPIHandler.do_POST` of `tests/mock_api_server.py`: the if/elif
substring dispatch on the request path.  Returns (HTTP status, body). -/
def do_POST (path : String) : Nat × Json :=
  if strIn "/upload/invoice" path then (200, mock_invoice_body)
  else if strIn "/upload/po" path then (200, mock_po_body)
  else if strIn "frappe.client.submit" path || strIn "submit" path then
    (200, submitted_body)
  else if strIn "Sales Invoice" path || strIn "Sales%20Invoice" path then
    (200, sinv_created_body)
  else if strIn "Purchase Order" path || strIn "Purchase%20Order" path then
    (200, po_created_body)
  else if strIn "/Customer" path || strIn "/Item" path || strIn "/Company" path
      || strIn "/Supplier" path then
    (200, .obj [("data", .obj [("name", .str "Created")])])
  else (200, .obj [("data", .obj [])])

/-- `MockAPIHandler.do_GET` of `tests/mock_api_server.py`. -/
def do_GET (path : String) : Nat × Json :=
  if strIn "/Company/" path then
    (200, .obj [("data", .obj [("name", .str "DEMO"),
                               ("default_currency", .str "USD")])])
  else if strIn "/Customer/" path || strIn "/Item/" path
      || strIn "/Supplier/" path then
    (404, .obj [("exc", .str "Not Found")])
  else (200, .obj [("data", .obj [])])

/-- `MockAPIHandler.do_PUT` of `tests/mock_api_server.py`. -/
def do_PUT (path : String) : Nat × Json :=
  if strIn "SINV-" path || strIn "PO-" path then
    (200, .obj [("data", .obj [
      ("name", .str (if strIn "SINV-" path then "SINV-2026-00001"
                     else "PO-2026-00001")),
      ("docstatus", .num 100)])])
  else (200, .obj [("data", .obj [])])

end MockAPIHandler

/-! ## Derived-field equations (spec §3, §8)

Checkers for the spec's derived-total equations, evaluated on response
bodies.  All values are two-decimal fixed-point, so the spec's
`round(..., 2)` on a sum of already-rounded values is the identity; the
product `quantity * rate` is rounded half-up via `mulRound2`. -/

/-- Numeric field of a JSON object, if present. -/
def numField (j : Json) (k : String) : Option ℤ := (j.lookup k).bind Json.getNum

/-- PO line item satisfies `total = round(quantity * unit_price, 2)`. -/
def poItemOk (it : Json) : Bool :=
  match numField it "quantity", numField it "unit_price", numField it "total" with
  | some q, some p, some t => t == mulRound2 q p
  | _, _, _ => false

/-- All PO line items of a body satisfy the per-item equation. -/
def poItemsOk (body : Json) : Bool :=
  match (body.lookup "items").bind Json.getArr with
  | some items => items.all poItemOk
  | none => false

/-- The body's `total_amount` equals the (rounded) sum of item totals. -/
def poTotalOk (body : Json) : Bool :=
  match numField body "total_amount", (body.lookup "items").bind Json.getArr with
  | some ta, some items =>
    ta == (items.map (fun it => (numField it "total").getD 0)).sum
  | _, _ => false

/-- The full derived-total contract for a PO body (claim C1). -/
def poDerivedOk (body : Json) : Bool := poItemsOk body && poTotalOk body

/-- Invoice line item satisfies `amount = round(quantity * rate, 2)`. -/
def invItemOk (it : Json) : Bool :=
  match numField it "quantity", numField it "rate", numField it "amount" with
  | some q, some r, some a => a == mulRound2 q r
  | _, _, _ => false

/-- The invoice `data` object satisfies all derived-field equations:
per-item amounts, `SubTotal` = sum of amounts, and
`InvoiceTotal = SubTotal + ShippingCost + Tax`. -/
def invoiceDataOk (d : Json) : Bool :=
  match (d.lookup "Items").bind Json.getArr, numField d "SubTotal",
        numField d "ShippingCost", numField d "Tax", numField d "InvoiceTotal" with
  | some items, some sub, some ship, some tax, some tot =>
    items.all invItemOk
      && sub == (items.map (fun it => (numField it "amount").getD 0)).sum
      && tot == sub + ship + tax
  | _, _, _, _, _ => false

/-- The derived-field contract applied to a response body's `data` object. -/
def invoiceRespOk (body : Json) : Bool :=
  match body.lookup "data" with
  | some d => invoiceDataOk d
  | none => false

/-- Sum of the `total` fields of a body's `items` array, if present. -/
def poItemTotalSum (body : Json) : Option ℤ :=
  ((body.lookup "items").bind Json.getArr).map
    (fun items => (items.map (fun it => (numField it "total").getD 0)).sum)

/-- Numeric field of a body's nested `data` object, if present. -/
def invoiceDataField (body : Json) (k : String) : Option ℤ :=
  (body.lookup "data").bind (fun d => numField d k)

/-- First entry of the `Items` array inside a body's `data` object. -/
def invoiceFirstItem (body : Json) : Option Json :=
  ((body.lookup "data").bind (fun d => (d.lookup "Items").bind Json.getArr)).bind
    List.head?

/-- Whether a JSON object carries every key of the list. -/
def hasAllKeys (j : Json) (ks : List String) : Bool := ks.all j.hasKey

/-- Whether a body's `data` field is an object carrying every listed key. -/
def dataHasKeys (body : Json) (ks : List String) : Bool :=
  match body.lookup "data" with
  | some d => hasAllKeys d ks
  | none => false

/-- The invoice raw-extraction schema field names (spec §6). -/
def invoiceSchemaKeys : List String :=
  ["InvoiceId", "VendorName", "InvoiceDate", "BillingAddressRecipient",
   "ShippingAddress", "SubTotal", "ShippingCost", "InvoiceTotal", "Tax",
   "Items"]

/-- The purchase-order raw-extraction schema field names (spec §6). -/
def poSchemaKeys : List String :=
  ["po_number", "date", "delivery_date", "supplier_name", "company_name",
   "total_amount", "status", "items"]

/-! ## Frontend components modelled from the spec

The upload/process/submit lifecycle, the field validator and the
submission outcome resolver live in the external frontend, which is not
part of this repository; the definitions below are built from the spec's
words (§4.2–§4.4) and the literal messages asserted by the UI tests. -/

/-- Modelled from the spec: the states of the upload/process/submit
lifecycle (§4.4); the frontend implementing it is not in this repository. -/
inductive LifecycleState where
  | empty | uploading | processing | populated | validating | submitting
  | submitted | failed
deriving DecidableEq

/-- Modelled from the spec: the `Empty → Uploading` transition of §4.4,
triggered by file selection and guarded by the PDF file-type check; a
violation stays in `Empty` and surfaces the literal message
"Please select a valid PDF file".  The frontend implementing this is not
in this repository. -/
def selectFile (s : LifecycleState) (filename : String) :
    LifecycleState × Option String :=
  match s with
  | .empty =>
    if strEndsWith filename ".pdf" then (.uploading, none)
    else (.empty, some "Please select a valid PDF file")
  | st => (st, none)

/-- An invoice form line item as validated by the frontend (fields beyond
quantity are irrelevant to the validator). -/
structure InvoiceItem where
  description : String
  category : String
  quantity : ℤ
  rate : ℤ

/-- An invoice form as validated by the frontend. -/
structure InvoiceForm where
  company_name : String
  customer_name : String
  items : List InvoiceItem

/-- A purchase-order form line item as validated by the frontend. -/
structure POItem where
  item_code : String
  description : String
  quantity : ℤ
  unit_price : ℤ

/-- A purchase-order form as validated by the frontend. -/
structure POForm where
  company_name : String
  supplier_name : String
  order_date : String
  delivery_date : String
  items : List POItem

/-- Modelled from the spec: rule 3 of §4.2 — first line item with
non-positive quantity yields the literal message
`"Item {1-based index}: Quantity must be greater than zero"`. -/
def firstQuantityError : List ℤ → Nat → Option String
  | [], _ => none
  | q :: rest, i =>
    if q ≤ 0 then some s!"Item {i}: Quantity must be greater than zero"
    else firstQuantityError rest (i + 1)

/-- Modelled from the spec: the invoice field validator of §4.2 — the
frontend implementing it is not in this repository.  Rules are evaluated
in the fixed priority order (company, counterparty, item quantities),
short-circuiting at the first failure; messages are the literal strings
asserted by `tests/ui/test_invoice_flow.py`. -/
def validateInvoice (f : InvoiceForm) : Option String :=
  if f.company_name = "" then
    some "Please specify a company before creating the invoice."
  else if f.customer_name = "" then
    some "Customer name is required"
  else firstQuantityError (f.items.map (fun it => it.quantity)) 1

/-- Modelled from the spec: the purchase-order field validator of §4.2
(company, supplier, item quantities, delivery date, in that order) — the
frontend implementing it is not in this repository.  The supplier message
is the literal string asserted by `tests/ui/test_po_flow.py`; the company
and delivery-date rules have "their own" messages the spec leaves open. -/
def validatePO (f : POForm) : Option String :=
  if f.company_name = "" then
    some "Please specify a company before creating the purchase order."
  else if f.supplier_name = "" then
    some "Supplier name is required"
  else
    match firstQuantityError (f.items.map (fun it => it.quantity)) 1 with
    | some e => some e
    | none =>
      if f.delivery_date = "" || f.delivery_date < f.order_date then
        some "Delivery date must not be before the order date"
      else none

/-- The external document-system's response to a create-then-submit
sequence, as seen by the frontend: an optional error text, and on success
a reference name and docstatus (0 = draft, 1 = submitted). -/
structure SubmitResponse where
  error : Option String
  name : Option String
  docstatus : Option ℤ

/-- The three-way submission outcome classification (spec §4.3). -/
inductive Outcome where
  | success | warning | error
deriving DecidableEq

/-- Modelled from the spec: the Submission Outcome Resolver of §4.3 — the
frontend implementing it is not in this repository.  An error text wins
over any success signals unless it matches the known-benign pattern
(contains "currency"), which downgrades to Warning; without an error, a
submitted reference (docstatus 1) is Success, a created-but-not-submitted
reference is Warning, no reference is Error. -/
def resolveOutcome (r : SubmitResponse) : Outcome :=
  match r.error with
  | some e => if strIn "currency" e then .warning else .error
  | none =>
    match r.name, r.docstatus with
    | some _, some d => if d == 1 then .success else .warning
    | some _, none => .warning
    | none, _ => .error

/-! ## Claim theorems -/

/-- C1 (counterexample): the claim "every PO extraction response satisfies
total = quantity * unit_price per item and total_amount = sum of item
totals" is false on the code: the Flask `/upload/po` 200 response (here
at a concrete valid upload) and the mock server's `/upload/po` body
both fail the document-level sum equation. -/
theorem c1_counterexample :
    (upload_po (some "order.pdf") "20260129_120000" "2026-01-29").snd = 200
    ∧ poDerivedOk
        (upload_po (some "order.pdf") "20260129_120000" "2026-01-29").fst = false
    ∧ (MockAPIHandler.do_POST "/upload/po").fst = 200
    ∧ poDerivedOk (MockAPIHandler.do_POST "/upload/po").snd = false := by
  decide

/-- C1 (amended): in the constant PO response bodies of both handlers every
line item satisfies total = round(quantity * unit_price, 2), but
`total_amount` does not equal the sum of the item totals in either body:
the Flask body carries 1520.00 against an item-total sum of 1820.00, the
mock body 292.50 against 250.00 (values are fixed-point, scaled by 100). -/
theorem c1_po_derived_totals :
    (∀ today fn : String, poItemsOk (po_mock_data today fn) = true)
    ∧ poItemsOk MockAPIHandler.mock_po_body = true
    ∧ (∀ today fn : String,
        numField (po_mock_data today fn) "total_amount" = some 152000
        ∧ poItemTotalSum (po_mock_data today fn) = some 182000)
    ∧ numField MockAPIHandler.mock_po_body "total_amount" = some 29250
    ∧ poItemTotalSum MockAPIHandler.mock_po_body = some 25000 :=
  ⟨fun _ _ => rfl, rfl, fun _ _ => ⟨rfl, rfl⟩, rfl, rfl⟩

/-- C2: every invoice extraction response of both handlers satisfies the
derived-field equations (per-item amount = round(quantity * rate, 2),
SubTotal = sum of amounts, InvoiceTotal = SubTotal + ShippingCost + Tax),
and the mock body realises Scenario 1: one item with quantity 2 and
rate 100, shipping 15, tax 35, SubTotal 200, InvoiceTotal 250 (values are
fixed-point, scaled by 100). -/
theorem c2_invoice_derived_fields :
    (∀ today fn : String, invoiceRespOk (invoice_mock_data today fn) = true)
    ∧ invoiceRespOk MockAPIHandler.mock_invoice_body = true
    ∧ ((invoiceFirstItem MockAPIHandler.mock_invoice_body).bind
         (fun it => numField it "quantity") = some 200
       ∧ (invoiceFirstItem MockAPIHandler.mock_invoice_body).bind
           (fun it => numField it "rate") = some 10000
       ∧ invoiceDataField MockAPIHandler.mock_invoice_body "ShippingCost" = some 1500
       ∧ invoiceDataField MockAPIHandler.mock_invoice_body "Tax" = some 3500
       ∧ invoiceDataField MockAPIHandler.mock_invoice_body "SubTotal" = some 20000
       ∧ invoiceDataField MockAPIHandler.mock_invoice_body "InvoiceTotal" = some 25000) :=
  ⟨fun _ _ => rfl, rfl, rfl, rfl, rfl, rfl, rfl, rfl⟩

/-- C4 (counterexample): the claim "every 200 upload response contains a
`filename` field and a `data` object with the schema fields" is false on
the code: the Flask `/upload/po` 200 body has no `data` object (its schema
fields sit at top level), and the mock server's `/upload/invoice` 200 body
has no `filename` field. -/
theorem c4_counterexample :
    (upload_po (some "order.pdf") "20260129_120000" "2026-01-29").snd = 200
    ∧ Json.hasKey
        (upload_po (some "order.pdf") "20260129_120000" "2026-01-29").fst
        "data" = false
    ∧ (MockAPIHandler.do_POST "/upload/invoice").fst = 200
    ∧ Json.hasKey (MockAPIHandler.do_POST "/upload/invoice").snd
        "filename" = false := by
  decide

/-- C4 (amended): every 200 upload response carries its document's
raw-extraction schema fields, but only the Flask invoice endpoint wraps
them in a `data` object next to `filename`; the Flask PO response has
`filename` with the schema fields at top level and no `data` object, and
the mock server's bodies have no `filename` at all (invoice fields inside
`data`, PO fields at top level). -/
theorem c4_response_shape :
    (∀ today fn : String,
        (invoice_mock_data today fn).hasKey "filename" = true
        ∧ dataHasKeys (invoice_mock_data today fn) invoiceSchemaKeys = true)
    ∧ (∀ today fn : String,
        (po_mock_data today fn).hasKey "filename" = true
        ∧ hasAllKeys (po_mock_data today fn) poSchemaKeys = true
        ∧ (po_mock_data today fn).hasKey "data" = false)
    ∧ (MockAPIHandler.mock_invoice_body.hasKey "filename" = false
       ∧ dataHasKeys MockAPIHandler.mock_invoice_body invoiceSchemaKeys = true)
    ∧ (MockAPIHandler.mock_po_body.hasKey "filename" = false
       ∧ hasAllKeys MockAPIHandler.mock_po_body poSchemaKeys = true
       ∧ MockAPIHandler.mock_po_body.hasKey "data" = false) :=
  ⟨fun _ _ => ⟨rfl, rfl⟩, fun _ _ => ⟨rfl, rfl, rfl⟩, ⟨rfl, rfl⟩, ⟨rfl, rfl, rfl⟩⟩

/-- C3: a Flask upload handler (either endpoint) returns HTTP 400 if and
only if the request has no `file` part, or the filename is empty, or the
filename does not end in `.pdf`; otherwise it returns 200.  The checks run
in that fixed order and the first failing one determines the error body. -/
theorem c3_upload_error_dispatch (file : Option String) (now today : String) :
    ((upload_invoice file now today).snd = 400 ↔
      file = none ∨ ∃ fn, file = some fn
        ∧ (fn = "" ∨ strEndsWith fn ".pdf" = false))
    ∧ ((upload_po file now today).snd = 400 ↔
      file = none ∨ ∃ fn, file = some fn
        ∧ (fn = "" ∨ strEndsWith fn ".pdf" = false))
    ∧ ((upload_invoice file now today).snd = 400
       ∨ (upload_invoice file now today).snd = 200)
    ∧ ((upload_po file now today).snd = 400
       ∨ (upload_po file now today).snd = 200)
    ∧ (file = none →
        (upload_invoice file now today).fst = errObj "No file provided"
        ∧ (upload_po file now today).fst = errObj "No file provided")
    ∧ (∀ fn, file = some fn → fn = "" →
        (upload_invoice file now today).fst = errObj "No file selected"
        ∧ (upload_po file now today).fst = errObj "No file selected")
    ∧ (∀ fn, file = some fn → fn ≠ "" → strEndsWith fn ".pdf" = false →
        (upload_invoice file now today).fst = errObj "Only PDF files are accepted"
        ∧ (upload_po file now today).fst = errObj "Only PDF files are accepted") := by
  cases file with
  | none => simp [upload_invoice, upload_po]
  | some fn =>
    by_cases h1 : fn = ""
    · subst h1; simp [upload_invoice, upload_po]
    · by_cases h2 : strEndsWith fn ".pdf"
      · simp [upload_invoice, upload_po, h1, h2]
      · simp [upload_invoice, upload_po, h1, h2]

/-- Witness for C3 at concrete requests: a missing file part gives 400, an
empty filename gives the "No file selected" body, a `.txt` filename gives
the "Only PDF files are accepted" body, and a `.pdf` one gives 200. -/
theorem c3_upload_error_dispatch_witness :
    (upload_invoice none "t" "d").snd = 400
    ∧ (upload_invoice (some "") "t" "d").fst = errObj "No file selected"
    ∧ (upload_po (some "doc.txt") "t" "d").fst = errObj "Only PDF files are accepted"
    ∧ (upload_invoice (some "doc.pdf") "t" "d").snd = 200 := by
  refine ⟨(c3_upload_error_dispatch none "t" "d").1.mpr (Or.inl rfl),
          ((c3_upload_error_dispatch (some "") "t" "d").2.2.2.2.2.1 "" rfl rfl).1,
          ((c3_upload_error_dispatch (some "doc.txt") "t" "d").2.2.2.2.2.2
            "doc.txt" rfl (by decide) (by decide)).2,
          by decide⟩

/-- C5: on the mock ERPNext server, a GET whose path contains `/Company/`
returns 200 with name DEMO and default_currency USD (this branch takes
precedence); a GET containing `/Customer/`, `/Item/` or `/Supplier/` but
not `/Company/` returns 404 with `{"exc": "Not Found"}`; every other GET
returns 200 with `{"data": {}}`. -/
theorem c5_mock_get_dispatch (p : String) :
    (strIn "/Company/" p = true →
      MockAPIHandler.do_GET p =
        (200, .obj [("data", .obj [("name", .str "DEMO"),
                                   ("default_currency", .str "USD")])]))
    ∧ (strIn "/Company/" p = false →
       (strIn "/Customer/" p || strIn "/Item/" p || strIn "/Supplier/" p) = true →
        MockAPIHandler.do_GET p = (404, .obj [("exc", .str "Not Found")]))
    ∧ (strIn "/Company/" p = false →
       (strIn "/Customer/" p || strIn "/Item/" p || strIn "/Supplier/" p) = false →
        MockAPIHandler.do_GET p = (200, .obj [("data", .obj [])])) := by
  refine ⟨fun h => ?_, fun h1 h2 => ?_, fun h1 h2 => ?_⟩ <;>
    simp [MockAPIHandler.do_GET, *]

/-- Witness for C5 at concrete paths: a Company lookup (even one that also
mentions Customer), a Customer lookup, and an unmatched path. -/
theorem c5_mock_get_dispatch_witness :
    MockAPIHandler.do_GET "/api/resource/Company/DEMO/Customer/" =
      (200, .obj [("data", .obj [("name", .str "DEMO"),
                                 ("default_currency", .str "USD")])])
    ∧ MockAPIHandler.do_GET "/api/resource/Customer/Acme" =
      (404, .obj [("exc", .str "Not Found")])
    ∧ MockAPIHandler.do_GET "/api/resource/Account" =
      (200, .obj [("data", .obj [])]) :=
  ⟨(c5_mock_get_dispatch "/api/resource/Company/DEMO/Customer/").1 (by decide),
   (c5_mock_get_dispatch "/api/resource/Customer/Acme").2.1 (by decide) (by decide),
   (c5_mock_get_dispatch "/api/resource/Account").2.2 (by decide) (by decide)⟩

/-- C6: the mock ERPNext server's create-then-submit contract.  With the
earlier dispatch branches unmatched, a POST whose path contains
`Sales Invoice` (or its URL-encoded form) returns 200 with a name prefixed
`SINV-` and docstatus 0; likewise `Purchase Order` with prefix `PO-`; a
POST whose path contains `submit` returns 200 with docstatus 1 and a name
field; and every PUT whose path contains `SINV-` or `PO-` returns 200 with
docstatus 1 and a name.  (Fixed-point convention: `.num 100` is the JSON
number 1.) -/
theorem c6_create_then_submit (p : String) :
    (strIn "/upload/invoice" p = false → strIn "/upload/po" p = false →
     strIn "frappe.client.submit" p = false → strIn "submit" p = false →
     (strIn "Sales Invoice" p || strIn "Sales%20Invoice" p) = true →
      MockAPIHandler.do_POST p = (200, MockAPIHandler.sinv_created_body))
    ∧ (strIn "/upload/invoice" p = false → strIn "/upload/po" p = false →
       strIn "frappe.client.submit" p = false → strIn "submit" p = false →
       strIn "Sales Invoice" p = false → strIn "Sales%20Invoice" p = false →
       (strIn "Purchase Order" p || strIn "Purchase%20Order" p) = true →
        MockAPIHandler.do_POST p = (200, MockAPIHandler.po_created_body))
    ∧ (strIn "/upload/invoice" p = false → strIn "/upload/po" p = false →
       (strIn "frappe.client.submit" p || strIn "submit" p) = true →
        MockAPIHandler.do_POST p = (200, MockAPIHandler.submitted_body))
    ∧ (strIn "SINV-" p = true →
        MockAPIHandler.do_PUT p =
          (200, .obj [("data", .obj [("name", .str "SINV-2026-00001"),
                                     ("docstatus", .num 100)])]))
    ∧ (strIn "SINV-" p = false → strIn "PO-" p = true →
        MockAPIHandler.do_PUT p =
          (200, .obj [("data", .obj [("name", .str "PO-2026-00001"),
                                     ("docstatus", .num 100)])]))
    ∧ matchesHere "SINV-".toList "SINV-2026-00001".toList = true
    ∧ matchesHere "PO-".toList "PO-2026-00001".toList = true
    ∧ ((MockAPIHandler.sinv_created_body.lookup "data").bind
         (fun d => numField d "docstatus") = some 0
       ∧ (MockAPIHandler.po_created_body.lookup "data").bind
           (fun d => numField d "docstatus") = some 0
       ∧ (MockAPIHandler.submitted_body.lookup "data").bind
           (fun d => numField d "docstatus") = some 100
       ∧ (MockAPIHandler.submitted_body.lookup "data").bind
           (fun d => (d.lookup "name").map (fun _ => ())) = some ()) := by
  refine ⟨fun h1 h2 h3 h4 h5 => ?_, fun h1 h2 h3 h4 h5 h6 h7 => ?_,
          fun h1 h2 h3 => ?_, fun h => ?_, fun h1 h2 => ?_,
          by decide, by decide, by decide, by decide, by decide, rfl⟩ <;>
    simp [MockAPIHandler.do_POST, MockAPIHandler.do_PUT, *]

/-- Witness for C6 at concrete paths: creation of a Sales Invoice and of a
Purchase Order, a submit call, and the two PUT fallbacks. -/
theorem c6_create_then_submit_witness :
    MockAPIHandler.do_POST "/api/resource/Sales Invoice" =
      (200, MockAPIHandler.sinv_created_body)
    ∧ MockAPIHandler.do_POST "/api/resource/Purchase%20Order" =
      (200, MockAPIHandler.po_created_body)
    ∧ MockAPIHandler.do_POST "/api/method/frappe.client.submit" =
      (200, MockAPIHandler.submitted_body)
    ∧ MockAPIHandler.do_PUT "/api/resource/Sales Invoice/SINV-2026-00001" =
      (200, .obj [("data", .obj [("name", .str "SINV-2026-00001"),
                                 ("docstatus", .num 100)])])
    ∧ MockAPIHandler.do_PUT "/api/resource/Purchase Order/PO-2026-00001" =
      (200, .obj [("data", .obj [("name", .str "PO-2026-00001"),
                                 ("docstatus", .num 100)])]) :=
  ⟨(c6_create_then_submit "/api/resource/Sales Invoice").1
     (by decide) (by decide) (by decide) (by decide) (by decide),
   (c6_create_then_submit "/api/resource/Purchase%20Order").2.1
     (by decide) (by decide) (by decide) (by decide) (by decide) (by decide)
     (by decide),
   (c6_create_then_submit "/api/method/frappe.client.submit").2.2.1
     (by decide) (by decide) (by decide),
   (c6_create_then_submit "/api/resource/Sales Invoice/SINV-2026-00001").2.2.2.1
     (by decide),
   (c6_create_then_submit "/api/resource/Purchase Order/PO-2026-00001").2.2.2.2.1
     (by decide) (by decide)⟩

/-- C10: the mock server's POST dispatch is total — every POST path gets
HTTP status 200 — and first-match ordered: a path containing both
`Sales Invoice` and `submit` (and matching neither upload branch) is
answered by the earlier submit branch (name "Submitted", docstatus 1),
never by the Sales Invoice creation branch. -/
theorem c10_post_dispatch_total (p : String) :
    (MockAPIHandler.do_POST p).fst = 200
    ∧ (strIn "/upload/invoice" p = false → strIn "/upload/po" p = false →
       strIn "Sales Invoice" p = true → strIn "submit" p = true →
        MockAPIHandler.do_POST p = (200, MockAPIHandler.submitted_body)) := by
  constructor
  · unfold MockAPIHandler.do_POST
    repeat' split
    all_goals rfl
  · intro h1 h2 h3 h4
    simp [MockAPIHandler.do_POST, h1, h2, h3, h4]

/-- Witness for C10: a path containing both `Sales Invoice` and `submit`
is answered by the submit branch, and an unmatched path still gets 200. -/
theorem c10_post_dispatch_total_witness :
    MockAPIHandler.do_POST "/api/resource/Sales Invoice/SINV-1/submit" =
      (200, MockAPIHandler.submitted_body)
    ∧ (MockAPIHandler.do_POST "/api/resource/Payment Entry").fst = 200 :=
  ⟨(c10_post_dispatch_total "/api/resource/Sales Invoice/SINV-1/submit").2
     (by decide) (by decide) (by decide) (by decide),
   (c10_post_dispatch_total "/api/resource/Payment Entry").1⟩

/-- C7: selecting a file that is not a PDF is rejected: the lifecycle
stays in `Empty` (no `Uploading` transition) and the surfaced message is
exactly the literal string "Please select a valid PDF file". -/
theorem c7_reject_non_pdf (fn : String) (h : strEndsWith fn ".pdf" = false) :
    selectFile LifecycleState.empty fn =
      (LifecycleState.empty, some "Please select a valid PDF file") := by
  simp [selectFile, h]

/-- Witness for C7 at the test suite's concrete file types: a `.txt` and an
`.xlsx` selection both stay in `Empty` with the literal message. -/
theorem c7_reject_non_pdf_witness :
    selectFile LifecycleState.empty "notes.txt" =
      (LifecycleState.empty, some "Please select a valid PDF file")
    ∧ selectFile LifecycleState.empty "report.xlsx" =
      (LifecycleState.empty, some "Please select a valid PDF file") :=
  ⟨c7_reject_non_pdf "notes.txt" (by decide),
   c7_reject_non_pdf "report.xlsx" (by decide)⟩

/-- C8: validation returns a single first-violation error in fixed
priority order: a document violating both the company rule and the
counterparty rule surfaces the company error (for an invoice, exactly
"Please specify a company before creating the invoice."); a PO with empty
supplier but non-empty company yields exactly "Supplier name is required";
an invoice passing the name rules whose first item has quantity ≤ 0 yields
exactly "Item 1: Quantity must be greater than zero". -/
theorem c8_validator_priority :
    (∀ f : InvoiceForm, f.company_name = "" → f.customer_name = "" →
      validateInvoice f =
        some "Please specify a company before creating the invoice.")
    ∧ (∀ f : POForm, f.company_name ≠ "" → f.supplier_name = "" →
        validatePO f = some "Supplier name is required")
    ∧ (∀ (f : InvoiceForm) (it : InvoiceItem) (rest : List InvoiceItem),
        f.company_name ≠ "" → f.customer_name ≠ "" → f.items = it :: rest →
        it.quantity ≤ 0 →
        validateInvoice f = some "Item 1: Quantity must be greater than zero") := by
  refine ⟨fun f hc _ => ?_, fun f hc hs => ?_, fun f it rest hc hcu hi hq => ?_⟩
  · simp [validateInvoice, hc]
  · simp [validatePO, hc, hs]
  · simp [validateInvoice, hc, hcu, hi, firstQuantityError, hq]
    rfl

/-- Witness for C8 at concrete documents: an invoice missing both names, a
PO with supplier cleared, and an invoice whose first item has quantity 0. -/
theorem c8_validator_priority_witness :
    validateInvoice ⟨"", "", []⟩ =
      some "Please specify a company before creating the invoice."
    ∧ validatePO ⟨"My Company", "", "2026-01-29", "2026-02-15", []⟩ =
      some "Supplier name is required"
    ∧ validateInvoice ⟨"My Company", "Test Customer",
        [⟨"Test Item 1", "Electronics", 0, 10000⟩]⟩ =
      some "Item 1: Quantity must be greater than zero" :=
  ⟨c8_validator_priority.1 ⟨"", "", []⟩ rfl rfl,
   c8_validator_priority.2.1 ⟨"My Company", "", "2026-01-29", "2026-02-15", []⟩
     (by decide) rfl,
   c8_validator_priority.2.2 ⟨"My Company", "Test Customer",
       [⟨"Test Item 1", "Electronics", 0, 10000⟩]⟩
     ⟨"Test Item 1", "Electronics", 0, 10000⟩ []
     (by decide) (by decide) rfl (by decide)⟩

/-- C9: the Submission Outcome Resolver downgrades any error whose text
contains the substring "currency" to Warning; every other error text wins
over co-occurring success signals and yields Error; and the three outcome
classes are mutually exclusive — exactly one per response. -/
theorem c9_outcome_resolver :
    (∀ (r : SubmitResponse) (e : String), r.error = some e →
      strIn "currency" e = true → resolveOutcome r = Outcome.warning)
    ∧ (∀ (r : SubmitResponse) (e : String), r.error = some e →
        strIn "currency" e = false → resolveOutcome r = Outcome.error)
    ∧ (∀ r : SubmitResponse,
        (resolveOutcome r = Outcome.success ∨ resolveOutcome r = Outcome.warning
          ∨ resolveOutcome r = Outcome.error)
        ∧ ¬(resolveOutcome r = Outcome.success ∧ resolveOutcome r = Outcome.warning)
        ∧ ¬(resolveOutcome r = Outcome.success ∧ resolveOutcome r = Outcome.error)
        ∧ ¬(resolveOutcome r = Outcome.warning ∧ resolveOutcome r = Outcome.error)) := by
  refine ⟨fun r e he hc => ?_, fun r e he hc => ?_, fun r => ?_⟩
  · simp [resolveOutcome, he, hc]
  · simp [resolveOutcome, he, hc]
  · cases h : resolveOutcome r <;> simp

/-- Witness for C9 at concrete responses: a currency-mismatch error (with
success signals present) resolves to Warning, a timeout error with the
same success signals resolves to Error, and the exclusivity conjunct holds
at the former. -/
theorem c9_outcome_resolver_witness :
    resolveOutcome ⟨some "currency mismatch for company DEMO",
      some "SINV-2026-00001", some 1⟩ = Outcome.warning
    ∧ resolveOutcome ⟨some "Request timed out",
        some "SINV-2026-00001", some 1⟩ = Outcome.error
    ∧ ¬(resolveOutcome ⟨some "currency mismatch for company DEMO",
          some "SINV-2026-00001", some 1⟩ = Outcome.warning
        ∧ resolveOutcome ⟨some "currency mismatch for company DEMO",
            some "SINV-2026-00001", some 1⟩ = Outcome.error) :=
  ⟨c9_outcome_resolver.1 ⟨some "currency mismatch for company DEMO",
      some "SINV-2026-00001", some 1⟩ "currency mismatch for company DEMO"
      rfl (by decide),
   c9_outcome_resolver.2.1 ⟨some "Request timed out",
       some "SINV-2026-00001", some 1⟩ "Request timed out" rfl (by decide),
   (c9_outcome_resolver.2.2 ⟨some "currency mismatch for company DEMO",
       some "SINV-2026-00001", some 1⟩).2.2.2⟩
